import Mathlib

/-
Verification of the surface-descriptor and memory-layout calculator of
src/src/video_core/texture_cache/surface_params.h (yuzu texture cache).

The repository provides only the header.  Functions defined inline in the
header (operator!=, GetGuestSizeInBytes, GetHostSizeInBytes, GetNumLayers,
the std::hash specialization) are embedded directly from that source.
Functions that are only declared there (Hash, operator==, the mip dimension,
size and offset calculators) live in a surface_params.cpp that is not part
of the sources, as do the format-metadata tables of video_core/surface.h and
Common::AlignUp of common/alignment.h; those are modelled from the spec and
are marked as such in their doc comments.

Machine integers (u32, std::size_t) are modelled as Nat: the spec describes
all layout arithmetic mathematically and bounds the extents well below any
overflow (hardware mip chains and texture extents), so no wrap-around is
modelled except inside the hash fingerprint, which is explicitly reduced
modulo 2^64 as a std::size_t.
-/

namespace VideoCore.Surface

/-- Modelled from the spec: the pixel-format enumeration of
video_core/surface.h is not among the sources.  Representative format codes
covering every metadata class the spec names: plain uncompressed color
formats (1x1 blocks), block-compressed formats (DXT), software-decompressed
ASTC formats of several block footprints, and depth/stencil (zeta) formats. -/
inductive PixelFormat where
  | ABGR8U
  | B5G6R5U
  | R8U
  | RGBA16F
  | DXT1
  | DXT45
  | ASTC_2D_4X4
  | ASTC_2D_5X4
  | ASTC_2D_8X8
  | Z32F
  | Z24S8
  | S8Z24
deriving DecidableEq

/-- Modelled from the spec: component classification enum of
video_core/surface.h (not among the sources). -/
inductive ComponentType where
  | UNorm
  | SNorm
  | SInt
  | UInt
  | Float
deriving DecidableEq

/-- Modelled from the spec: surface type (color / depth / stencil family)
enum of video_core/surface.h (not among the sources). -/
inductive SurfaceType where
  | ColorTexture
  | Depth
  | DepthStencil
  | Invalid
deriving DecidableEq

/-- Modelled from the spec: surface target (dimensionality) enum of
video_core/surface.h (not among the sources). -/
inductive SurfaceTarget where
  | Texture1D
  | Texture2D
  | Texture3D
  | Texture1DArray
  | Texture2DArray
  | TextureCubemap
  | TextureCubeArray
deriving DecidableEq

/-- Modelled from the spec: format metadata lookup, default compression
block width (1 for uncompressed formats, format specific for
block-compressed ones). -/
def GetDefaultBlockWidth : PixelFormat → Nat
  | .ABGR8U => 1
  | .B5G6R5U => 1
  | .R8U => 1
  | .RGBA16F => 1
  | .DXT1 => 4
  | .DXT45 => 4
  | .ASTC_2D_4X4 => 4
  | .ASTC_2D_5X4 => 5
  | .ASTC_2D_8X8 => 8
  | .Z32F => 1
  | .Z24S8 => 1
  | .S8Z24 => 1

/-- Modelled from the spec: format metadata lookup, default compression
block height (1 for uncompressed formats, format specific for
block-compressed ones). -/
def GetDefaultBlockHeight : PixelFormat → Nat
  | .ABGR8U => 1
  | .B5G6R5U => 1
  | .R8U => 1
  | .RGBA16F => 1
  | .DXT1 => 4
  | .DXT45 => 4
  | .ASTC_2D_4X4 => 4
  | .ASTC_2D_5X4 => 4
  | .ASTC_2D_8X8 => 8
  | .Z32F => 1
  | .Z24S8 => 1
  | .S8Z24 => 1

/-- Modelled from the spec: format metadata lookup, bits per pixel (bits per
compression block for block-compressed formats). -/
def GetFormatBitsPerPixel : PixelFormat → Nat
  | .ABGR8U => 32
  | .B5G6R5U => 16
  | .R8U => 8
  | .RGBA16F => 64
  | .DXT1 => 64
  | .DXT45 => 128
  | .ASTC_2D_4X4 => 128
  | .ASTC_2D_5X4 => 128
  | .ASTC_2D_8X8 => 128
  | .Z32F => 32
  | .Z24S8 => 32
  | .S8Z24 => 32

/-- Modelled from the spec: format metadata lookup, whether a format is of
the ASTC class, whose compression is decoded in software so the cached host
representation is the decompressed RGBA8 image. -/
def IsPixelFormatASTC : PixelFormat → Bool
  | .ASTC_2D_4X4 => true
  | .ASTC_2D_5X4 => true
  | .ASTC_2D_8X8 => true
  | _ => false

end VideoCore.Surface

namespace Common

/-- Modelled from the spec: Common::AlignUp of common/alignment.h (not among
the sources) rounds a value up to the next multiple of the alignment. -/
def AlignUp (value size : Nat) : Nat :=
  if size = 0 then value else (value + size - 1) / size * size

end Common

namespace VideoCommon

open VideoCore.Surface

/-- The canonical surface descriptor, with the public fields of
SurfaceParams in surface_params.h, in declaration order. -/
structure SurfaceParams where
  is_tiled : Bool
  srgb_conversion : Bool
  is_layered : Bool
  block_width : Nat
  block_height : Nat
  block_depth : Nat
  tile_width_spacing : Nat
  width : Nat
  height : Nat
  depth : Nat
  pitch : Nat
  unaligned_height : Nat
  num_levels : Nat
  pixel_format : PixelFormat
  component_type : ComponentType
  type : SurfaceType
  target : SurfaceTarget
deriving DecidableEq

/-- Error signalled by mip/layer queries, per the spec's error-handling
design (section 7). -/
inductive LayoutError where
  | OutOfRangeError
deriving DecidableEq

namespace SurfaceParams

/-- Mip-chain width helper: standard mip halving with floor at 1. -/
def mipWidth (p : SurfaceParams) (level : Nat) : Nat :=
  max 1 (p.width >>> level)

/-- Mip-chain height helper: standard mip halving with floor at 1. -/
def mipHeight (p : SurfaceParams) (level : Nat) : Nat :=
  max 1 (p.height >>> level)

/-- Mip-chain depth helper: mip halving with floor at 1, skipped for layered
surfaces (layers do not shrink). -/
def mipDepth (p : SurfaceParams) (level : Nat) : Nat :=
  if p.is_layered then p.depth else max 1 (p.depth >>> level)

/-- Modelled from the spec: SurfaceParams::GetMipWidth (declared in the
header, defined in the missing surface_params.cpp).  Returns the mip level's
width, max(1, width >> level); a query with level >= num_levels signals an
OutOfRangeError (spec sections 4.1 and 7). -/
def GetMipWidth (p : SurfaceParams) (level : Nat) : Except LayoutError Nat :=
  if level < p.num_levels then .ok (p.mipWidth level) else .error .OutOfRangeError

/-- Modelled from the spec: SurfaceParams::GetMipHeight (declared in the
header, defined in the missing surface_params.cpp).  Returns the mip level's
height, max(1, height >> level); a query with level >= num_levels signals an
OutOfRangeError (spec sections 4.1 and 7). -/
def GetMipHeight (p : SurfaceParams) (level : Nat) : Except LayoutError Nat :=
  if level < p.num_levels then .ok (p.mipHeight level) else .error .OutOfRangeError

/-- Modelled from the spec: SurfaceParams::GetMipDepth (declared in the
header, defined in the missing surface_params.cpp).  Returns the mip level's
depth; depth mipping is skipped when is_layered; a query with
level >= num_levels signals an OutOfRangeError (spec sections 4.1 and 7). -/
def GetMipDepth (p : SurfaceParams) (level : Nat) : Except LayoutError Nat :=
  if level < p.num_levels then .ok (p.mipDepth level) else .error .OutOfRangeError

/-- Fixed GOB footprint width in bytes of the block-linear layout. -/
def gobWidthBytes : Nat := 64

/-- Fixed GOB footprint height in rows of the block-linear layout. -/
def gobHeightRows : Nat := 8

/-- Modelled from the spec: SurfaceParams::GetMipBlockHeight (declared in
the header, defined in the missing surface_params.cpp).  The block-height
exponent shrinks by one step once the mip height falls below the block's
coverage, clamped so it never drops below exponent 0; the spec leaves the
precise step function open (design note), so a single-step reduction is
modelled. -/
def GetMipBlockHeight (p : SurfaceParams) (level : Nat) : Nat :=
  if level = 0 then p.block_height
  else if 0 < p.block_height ∧ p.mipHeight level < gobHeightRows <<< p.block_height then
    p.block_height - 1
  else p.block_height

/-- Modelled from the spec: SurfaceParams::GetMipBlockDepth (declared in the
header, defined in the missing surface_params.cpp).  Same clamped shrinking
rule as the block height, over the mip depth. -/
def GetMipBlockDepth (p : SurfaceParams) (level : Nat) : Nat :=
  if level = 0 then p.block_depth
  else if 0 < p.block_depth ∧ p.mipDepth level < 1 <<< p.block_depth then
    p.block_depth - 1
  else p.block_depth

/-- Bytes per pixel: bits per pixel divided by 8 (spec section 4.3). -/
def GetBytesPerPixel (p : SurfaceParams) : Nat :=
  GetFormatBitsPerPixel p.pixel_format / 8

/-- Modelled from the spec: SurfaceParams::GetInnerMipmapMemorySize
(declared in the header, defined in the missing surface_params.cpp).  Size
in bytes of one mip level inside a layer.  Uncompressed requests bypass
compressed-block accounting and use raw texel counts; otherwise extents are
measured in compression blocks.  Guest tiled sizes round up to the GOB
footprint scaled by the mip's block exponents; guest linear sizes are
pitch times the block-aligned row count; host sizes are the plain linear
product with bytes per pixel (spec section 4.1). -/
def GetInnerMipmapMemorySize (p : SurfaceParams) (level : Nat)
    (as_host_size uncompressed : Bool) : Nat :=
  let dbw := GetDefaultBlockWidth p.pixel_format
  let dbh := GetDefaultBlockHeight p.pixel_format
  let w := if uncompressed then p.mipWidth level else (p.mipWidth level + dbw - 1) / dbw
  let h := if uncompressed then p.mipHeight level else (p.mipHeight level + dbh - 1) / dbh
  let d := if p.is_layered then 1 else p.mipDepth level
  if !as_host_size && p.is_tiled then
    Common.AlignUp (w * p.GetBytesPerPixel) gobWidthBytes *
      Common.AlignUp h (gobHeightRows <<< p.GetMipBlockHeight level) *
      Common.AlignUp d (1 <<< p.GetMipBlockDepth level)
  else if !as_host_size && !p.is_tiled then
    p.pitch * h
  else
    w * h * d * p.GetBytesPerPixel

/-- Modelled from the spec: SurfaceParams::GetLayerSize (declared in the
header, defined in the missing surface_params.cpp).  Size of one layer: the
sizes of mip levels 0..num_levels-1 accumulated in order (spec section
4.1). -/
def GetLayerSize (p : SurfaceParams) (as_host_size uncompressed : Bool) : Nat :=
  (List.range p.num_levels).foldl
    (fun acc level => acc + p.GetInnerMipmapMemorySize level as_host_size uncompressed) 0

/-- From the header: GetNumLayers returns depth when the surface is layered
and 1 otherwise. -/
def GetNumLayers (p : SurfaceParams) : Nat :=
  if p.is_layered then p.depth else 1

/-- Modelled from the spec: SurfaceParams::GetInnerMemorySize (declared in
the header, defined in the missing surface_params.cpp).  Total size: the
layer size, times the number of layers unless only one layer is asked for
(spec section 4.1, total guest/host size). -/
def GetInnerMemorySize (p : SurfaceParams)
    (as_host_size layer_only uncompressed : Bool) : Nat :=
  p.GetLayerSize as_host_size uncompressed * (if layer_only then 1 else p.GetNumLayers)

/-- From the header: GetGuestSizeInBytes is GetInnerMemorySize(false, false,
false). -/
def GetGuestSizeInBytes (p : SurfaceParams) : Nat :=
  p.GetInnerMemorySize false false false

/-- From the header: GetHostSizeInBytes.  ASTC is decompressed in software
and emulated as RGBA8, so its host size is the aligned full-resolution
4-bytes-per-pixel footprint; every other format uses
GetInnerMemorySize(true, false, false). -/
def GetHostSizeInBytes (p : SurfaceParams) : Nat :=
  if IsPixelFormatASTC p.pixel_format then
    Common.AlignUp p.width (GetDefaultBlockWidth p.pixel_format) *
      Common.AlignUp p.height (GetDefaultBlockHeight p.pixel_format) *
      p.depth * 4
  else
    p.GetInnerMemorySize true false false

/-- Modelled from the spec: SurfaceParams::GetGuestMipmapSize (declared in
the header, defined in the missing surface_params.cpp): the guest size of
one mip level inside a layer. -/
def GetGuestMipmapSize (p : SurfaceParams) (level : Nat) : Nat :=
  p.GetInnerMipmapMemorySize level false false

/-- Modelled from the spec: SurfaceParams::GetHostMipmapSize (declared in
the header, defined in the missing surface_params.cpp): the host (linear)
size of one mip level inside a layer. -/
def GetHostMipmapSize (p : SurfaceParams) (level : Nat) : Nat :=
  p.GetInnerMipmapMemorySize level true false

/-- Modelled from the spec: SurfaceParams::GetGuestMipmapLevelOffset
(declared in the header, defined in the missing surface_params.cpp): the
guest offset of a mip level, accumulated by iterating levels 0..level-1 and
adding their guest sizes; level 0 has offset 0 (spec section 4.1). -/
def GetGuestMipmapLevelOffset (p : SurfaceParams) : Nat → Nat
  | 0 => 0
  | level + 1 =>
    p.GetGuestMipmapLevelOffset level + p.GetInnerMipmapMemorySize level false false

/-- Modelled from the spec: SurfaceParams::GetHostMipmapLevelOffset
(declared in the header, defined in the missing surface_params.cpp): the
host offset of a mip level, accumulated by iterating levels 0..level-1 and
adding their host sizes; level 0 has offset 0 (spec section 4.1). -/
def GetHostMipmapLevelOffset (p : SurfaceParams) : Nat → Nat
  | 0 => 0
  | level + 1 =>
    p.GetHostMipmapLevelOffset level + p.GetInnerMipmapMemorySize level true false

/-- Modelled from the spec: SurfaceParams::GetGuestLayerSize (declared in
the header, defined in the missing surface_params.cpp): the guest size of a
whole layer, the full mip chain. -/
def GetGuestLayerSize (p : SurfaceParams) : Nat :=
  p.GetLayerSize false false

/-- Modelled from the spec: SurfaceParams::GetHostLayerSize (declared in the
header, defined in the missing surface_params.cpp): the host size of one mip
level across the layer. -/
def GetHostLayerSize (p : SurfaceParams) (level : Nat) : Nat :=
  p.GetInnerMipmapMemorySize level true false * p.GetNumLayers

/-- Modelled from the spec: SurfaceParams::operator== (declared in the
header, defined in the missing surface_params.cpp): strict field-by-field
comparison over every descriptor field (spec section 4.2). -/
def eq (a b : SurfaceParams) : Bool :=
  decide (a.is_tiled = b.is_tiled) &&
  decide (a.srgb_conversion = b.srgb_conversion) &&
  decide (a.is_layered = b.is_layered) &&
  decide (a.block_width = b.block_width) &&
  decide (a.block_height = b.block_height) &&
  decide (a.block_depth = b.block_depth) &&
  decide (a.tile_width_spacing = b.tile_width_spacing) &&
  decide (a.width = b.width) &&
  decide (a.height = b.height) &&
  decide (a.depth = b.depth) &&
  decide (a.pitch = b.pitch) &&
  decide (a.unaligned_height = b.unaligned_height) &&
  decide (a.num_levels = b.num_levels) &&
  decide (a.pixel_format = b.pixel_format) &&
  decide (a.component_type = b.component_type) &&
  decide (a.type = b.type) &&
  decide (a.target = b.target)

/-- From the header: operator!= returns the negation of operator==. -/
def neq (a b : SurfaceParams) : Bool :=
  !(eq a b)

/-- One mixing step of the fingerprint: fold a field's bit pattern into the
seed, order sensitively, in 64-bit std::size_t arithmetic. -/
def hashCombine (seed x : Nat) : Nat :=
  ((seed ^^^ x) * 1099511628211) % 2 ^ 64

/-- Modelled from the spec: SurfaceParams::Hash (declared in the header,
defined in the missing surface_params.cpp): an order-sensitive,
avalanche-style combination of every descriptor field, no field excluded
(spec section 4.2), reduced modulo 2^64 as a std::size_t. -/
def Hash (p : SurfaceParams) : Nat :=
  [p.is_tiled.toNat, p.srgb_conversion.toNat, p.is_layered.toNat,
   p.block_width, p.block_height, p.block_depth, p.tile_width_spacing,
   p.width, p.height, p.depth, p.pitch, p.unaligned_height, p.num_levels,
   p.pixel_format.toCtorIdx, p.component_type.toCtorIdx,
   p.type.toCtorIdx, p.target.toCtorIdx].foldl hashCombine 14695981039346656037

end SurfaceParams

/-- From the header: the std::hash specialization for SurfaceParams returns
k.Hash(). -/
def stdHashSurfaceParams (k : SurfaceParams) : Nat :=
  k.Hash

end VideoCommon

namespace VideoCommon

open VideoCore.Surface

/-- A linear (pitch) 256x256 RGBA8 descriptor with a 2-level mip chain. -/
def sampleLinear : SurfaceParams :=
  { is_tiled := false, srgb_conversion := false, is_layered := false,
    block_width := 0, block_height := 0, block_depth := 0, tile_width_spacing := 0,
    width := 256, height := 256, depth := 1, pitch := 1024, unaligned_height := 256,
    num_levels := 2, pixel_format := .ABGR8U, component_type := .UNorm,
    type := .ColorTexture, target := .Texture2D }

/-- A tiled 60x60 ASTC 8x8 descriptor with a 3-level mip chain. -/
def sampleASTC : SurfaceParams :=
  { is_tiled := true, srgb_conversion := true, is_layered := false,
    block_width := 0, block_height := 2, block_depth := 0, tile_width_spacing := 0,
    width := 60, height := 60, depth := 1, pitch := 0, unaligned_height := 60,
    num_levels := 3, pixel_format := .ASTC_2D_8X8, component_type := .UNorm,
    type := .ColorTexture, target := .Texture2D }

/-- A tiled 64x64 layered (4 layers) RGBA8 descriptor with 2 mip levels. -/
def sampleLayered : SurfaceParams :=
  { is_tiled := true, srgb_conversion := false, is_layered := true,
    block_width := 0, block_height := 4, block_depth := 0, tile_width_spacing := 0,
    width := 64, height := 64, depth := 4, pitch := 0, unaligned_height := 64,
    num_levels := 2, pixel_format := .ABGR8U, component_type := .UNorm,
    type := .ColorTexture, target := .Texture2DArray }

/-- Accumulating a function over List.range is the Finset.range sum. -/
theorem foldl_range_add (f : Nat → Nat) (n : Nat) :
    (List.range n).foldl (fun acc l => acc + f l) 0 = ∑ l ∈ Finset.range n, f l := by
  induction n with
  | zero => simp
  | succ m ih =>
    rw [List.range_succ, List.foldl_append]
    simp [ih, Finset.sum_range_succ]


/-- C1: for all SurfaceParams descriptors a and b, if a == b (field-by-field
equality over every descriptor field) then a.Hash() == b.Hash(). -/
theorem C1_eq_implies_hash_eq (a b : SurfaceParams)
    (h : SurfaceParams.eq a b = true) : a.Hash = b.Hash := by
  have hab : a = b := by
    cases a; cases b
    simp only [SurfaceParams.eq, Bool.and_eq_true, decide_eq_true_eq] at h
    simp only [SurfaceParams.mk.injEq]
    tauto
  rw [hab]

/-- Witness for C1 at two equal concrete descriptors. -/
theorem C1_eq_implies_hash_eq_witness :
    SurfaceParams.eq sampleLinear sampleLinear = true ∧
    sampleLinear.Hash = sampleLinear.Hash :=
  ⟨by decide, C1_eq_implies_hash_eq sampleLinear sampleLinear (by decide)⟩

/-- C2: for a descriptor whose pixel_format is a software-decompressed
(ASTC-class) format, GetHostSizeInBytes() equals width aligned up to the
format's default block width, times height aligned up to the default block
height, times depth, times 4, independently of num_levels. -/
theorem C2_astc_host_size (p : SurfaceParams)
    (h : IsPixelFormatASTC p.pixel_format = true) :
    p.GetHostSizeInBytes =
      Common.AlignUp p.width (GetDefaultBlockWidth p.pixel_format) *
        Common.AlignUp p.height (GetDefaultBlockHeight p.pixel_format) *
        p.depth * 4 ∧
    ∀ n : Nat,
      SurfaceParams.GetHostSizeInBytes { p with num_levels := n } =
        p.GetHostSizeInBytes := by
  constructor
  · simp [SurfaceParams.GetHostSizeInBytes, h]
  · intro n
    simp [SurfaceParams.GetHostSizeInBytes, h]

/-- Witness for C2 at a concrete ASTC descriptor. -/
theorem C2_astc_host_size_witness :
    sampleASTC.GetHostSizeInBytes =
      Common.AlignUp sampleASTC.width (GetDefaultBlockWidth sampleASTC.pixel_format) *
        Common.AlignUp sampleASTC.height (GetDefaultBlockHeight sampleASTC.pixel_format) *
        sampleASTC.depth * 4 :=
  (C2_astc_host_size sampleASTC (by decide)).1

/-- C3: for every level L < num_levels, GetMipWidth(L) = max(1, width >> L),
GetMipHeight(L) = max(1, height >> L), and GetMipDepth(L) is depth when
is_layered and max(1, depth >> L) otherwise. -/
theorem C3_mip_dimensions (p : SurfaceParams) (level : Nat)
    (h : level < p.num_levels) :
    p.GetMipWidth level = .ok (max 1 (p.width >>> level)) ∧
    p.GetMipHeight level = .ok (max 1 (p.height >>> level)) ∧
    p.GetMipDepth level =
      .ok (if p.is_layered then p.depth else max 1 (p.depth >>> level)) := by
  refine ⟨?_, ?_, ?_⟩ <;>
    simp [SurfaceParams.GetMipWidth, SurfaceParams.GetMipHeight,
      SurfaceParams.GetMipDepth, SurfaceParams.mipWidth, SurfaceParams.mipHeight,
      SurfaceParams.mipDepth, h]

/-- Witness for C3: level 1 of the concrete layered 64x64 descriptor. -/
theorem C3_mip_dimensions_witness :
    sampleLayered.GetMipWidth 1 = .ok (max 1 (sampleLayered.width >>> 1)) ∧
    sampleLayered.GetMipHeight 1 = .ok (max 1 (sampleLayered.height >>> 1)) ∧
    sampleLayered.GetMipDepth 1 =
      .ok (if sampleLayered.is_layered then sampleLayered.depth
           else max 1 (sampleLayered.depth >>> 1)) :=
  C3_mip_dimensions sampleLayered 1 (by decide)

/-- C4: GetGuestMipmapLevelOffset(0) = 0 and GetHostMipmapLevelOffset(0) = 0,
and each offset at level L is the sum of the sizes of levels 0..L-1 computed
with the matching size function. -/
theorem C4_mip_offsets (p : SurfaceParams) :
    p.GetGuestMipmapLevelOffset 0 = 0 ∧
    p.GetHostMipmapLevelOffset 0 = 0 ∧
    ∀ L : Nat,
      p.GetGuestMipmapLevelOffset L = ∑ l ∈ Finset.range L, p.GetGuestMipmapSize l ∧
      p.GetHostMipmapLevelOffset L = ∑ l ∈ Finset.range L, p.GetHostMipmapSize l := by
  refine ⟨rfl, rfl, ?_⟩
  intro L
  induction L with
  | zero => simp [SurfaceParams.GetGuestMipmapLevelOffset,
      SurfaceParams.GetHostMipmapLevelOffset]
  | succ n ih =>
    simp [SurfaceParams.GetGuestMipmapLevelOffset,
      SurfaceParams.GetHostMipmapLevelOffset, Finset.sum_range_succ, ih.1, ih.2,
      SurfaceParams.GetGuestMipmapSize, SurfaceParams.GetHostMipmapSize]

/-- C5: for L with L+1 < num_levels, if level L's guest size is nonzero then
the guest mip offsets strictly increase from L to L+1. -/
theorem C5_guest_offset_monotone (p : SurfaceParams) (L : Nat)
    (_h1 : L + 1 < p.num_levels) (h2 : 0 < p.GetGuestMipmapSize L) :
    p.GetGuestMipmapLevelOffset L < p.GetGuestMipmapLevelOffset (L + 1) := by
  show p.GetGuestMipmapLevelOffset L <
    p.GetGuestMipmapLevelOffset L + p.GetInnerMipmapMemorySize L false false
  exact Nat.lt_add_of_pos_right h2

/-- Witness for C5 at the concrete linear descriptor, levels 0 and 1. -/
theorem C5_guest_offset_monotone_witness :
    sampleLinear.GetGuestMipmapLevelOffset 0 <
      sampleLinear.GetGuestMipmapLevelOffset 1 :=
  C5_guest_offset_monotone sampleLinear 0 (by decide) (by decide)

/-- C6: the sum of GetGuestMipmapSize(L) over all L in [0, num_levels)
equals GetGuestLayerSize(). -/
theorem C6_chain_sum_identity (p : SurfaceParams) :
    ∑ L ∈ Finset.range p.num_levels, p.GetGuestMipmapSize L =
      p.GetGuestLayerSize := by
  rw [SurfaceParams.GetGuestLayerSize, SurfaceParams.GetLayerSize,
    foldl_range_add (fun l => p.GetInnerMipmapMemorySize l false false)]
  rfl

/-- C7: GetNumLayers() is 1 when is_layered is false, regardless of depth,
and depth when is_layered is true. -/
theorem C7_num_layers (p : SurfaceParams) :
    (p.is_layered = false → p.GetNumLayers = 1) ∧
    (p.is_layered = true → p.GetNumLayers = p.depth) := by
  constructor <;> intro h <;> simp [SurfaceParams.GetNumLayers, h]

/-- Witness for C7 at a concrete non-layered and a concrete layered
descriptor. -/
theorem C7_num_layers_witness :
    sampleLinear.GetNumLayers = 1 ∧ sampleLayered.GetNumLayers = sampleLayered.depth :=
  ⟨(C7_num_layers sampleLinear).1 rfl, (C7_num_layers sampleLayered).2 rfl⟩

/-- C8: a mip query with level >= num_levels signals an OutOfRangeError
rather than returning a value. -/
theorem C8_out_of_range (p : SurfaceParams) (level : Nat)
    (h : p.num_levels ≤ level) :
    p.GetMipWidth level = .error .OutOfRangeError ∧
    p.GetMipHeight level = .error .OutOfRangeError ∧
    p.GetMipDepth level = .error .OutOfRangeError := by
  have hlt : ¬ level < p.num_levels := Nat.not_lt.mpr h
  refine ⟨?_, ?_, ?_⟩ <;>
    simp [SurfaceParams.GetMipWidth, SurfaceParams.GetMipHeight,
      SurfaceParams.GetMipDepth, hlt]

/-- Witness for C8: GetMipWidth(5) on a concrete descriptor with
num_levels = 2 signals OutOfRangeError (the spec's scenario C). -/
theorem C8_out_of_range_witness :
    sampleLinear.GetMipWidth 5 = .error .OutOfRangeError ∧
    sampleLinear.GetMipHeight 5 = .error .OutOfRangeError ∧
    sampleLinear.GetMipDepth 5 = .error .OutOfRangeError :=
  C8_out_of_range sampleLinear 5 (by decide)

/-- C9: operator!= returns exactly the logical negation of operator==, so
exactly one of the two comparisons holds for any pair. -/
theorem C9_neq_is_negation (a b : SurfaceParams) :
    SurfaceParams.neq a b = !(SurfaceParams.eq a b) ∧
    (SurfaceParams.eq a b = true ∨ SurfaceParams.neq a b = true) ∧
    ¬(SurfaceParams.eq a b = true ∧ SurfaceParams.neq a b = true) := by
  refine ⟨rfl, ?_, ?_⟩ <;>
    cases h : SurfaceParams.eq a b <;> simp [SurfaceParams.neq, h]

/-- C10: the std::hash specialization for SurfaceParams returns exactly
k.Hash(). -/
theorem C10_std_hash_is_hash (k : SurfaceParams) :
    stdHashSurfaceParams k = k.Hash :=
  rfl

end VideoCommon
